import Mathlib

/-!
Shallow embedding of the pump.fun metadata pipeline core:
the metadata cache (`MetadataCacheService`, src/src/meta/meta.service.ts),
the read-only query projection (`MetadataQueryService`,
src/src/meta/metadata-query.service.ts), the stream ingestor and the
enrichment orchestrator (`GeyserService.handleData` /
`fetchMetadataWithRetry`, src/src/geyser/geyser.module.ts).

Modelling conventions:
* JS `Map` is an association list with insertion order and in-place update
  (`mapSet`), `Set` a duplicate-free list.
* `Date.now()` timestamps are `Nat` milliseconds, passed explicitly as a
  `now` argument at each point the source calls `Date.now()`.
* JS `now - t > limit` on possibly-negative differences agrees with the
  `Nat`-truncated subtraction used here: both sides are `false` when
  `t > now`.
* The external `MetadataService` client (existence probe / full fetch) and
  the passage of time between retry attempts are an oracle: a function
  from the attempt number to the attempt's timestamp and outcome.
* Emitted notification payloads are modelled structurally: the cached-path
  emission carries the cache entry (which has the extra bookkeeping fields
  `failed`/`cachedAt`/`attempts`/`lastAttempt`), the fresh-path emission
  carries the bare metadata, so the two payloads are distinct JS objects
  exactly when the model records them as distinct.
-/

namespace Pumpkin

/-! ### Association-list model of JS `Map` (insertion order, in-place update) -/

def mapGet {α : Type} (l : List (String × α)) (k : String) : Option α :=
  (l.find? (fun p => p.1 == k)).map (·.2)

def mapSet {α : Type} (l : List (String × α)) (k : String) (v : α) :
    List (String × α) :=
  if l.any (fun p => p.1 == k) then
    l.map (fun p => if p.1 == k then (k, v) else p)
  else
    l ++ [(k, v)]

def mapDelete {α : Type} (l : List (String × α)) (k : String) :
    List (String × α) :=
  l.filter (fun p => p.1 != k)

/-! ### base58 encoding (bs58, as used by `convertSignature` and
`new PublicKey(bytes).toBase58()`) -/

def B58_ALPHABET : List Char :=
  "123456789ABCDEFGHJKLMNPQRSTUVWXYZabcdefghijkmnopqrstuvwxyz".toList

def bytesToNat (bs : List Nat) : Nat :=
  bs.foldl (fun acc b => acc * 256 + b % 256) 0

/-- Base-58 digits of `n`, least significant first; `fuel` bounds recursion. -/
def b58DigitsAux : Nat → Nat → List Nat
  | 0, _ => []
  | fuel + 1, n => if n = 0 then [] else n % 58 :: b58DigitsAux fuel (n / 58)

def countLeadingZeroBytes : List Nat → Nat
  | [] => 0
  | b :: rest => if b % 256 = 0 then countLeadingZeroBytes rest + 1 else 0

/-- bs58 encode: one `'1'` per leading zero byte, then the base-58 digits of
the big-endian integer value, most significant first. -/
def base58Encode (bs : List Nat) : String :=
  let z := countLeadingZeroBytes bs
  let digits := (b58DigitsAux (2 * bs.length + 1) (bytesToNat bs)).reverse
  String.mk (List.replicate z '1' ++ digits.map (fun d => B58_ALPHABET.getD d '?'))

/-! ### Data model (src/src/meta/meta.types.ts, part_002 of the unnamed files) -/

/-- Off-chain metadata document shape from `meta.types.ts`
(`offChainMetadata?: { name?, symbol?, description?, image?, showName?,
createdOn?, twitter?, website?, telegram? }`). -/
structure OffChainMetadata where
  name : Option String := none
  symbol : Option String := none
  description : Option String := none
  image : Option String := none
  showName : Option Bool := none
  createdOn : Option String := none
  twitter : Option String := none
  website : Option String := none
  telegram : Option String := none
deriving DecidableEq, Repr

/-- `TokenMetadata` from `meta.types.ts` (the shape the cache stores; the
optional bookkeeping fields of the TS interface live on `CachedTokenMetadata`). -/
structure TokenMetadata where
  name : String
  symbol : String
  uri : String
  mint : String
  updateAuthority : String
  isMutable : Bool
  primarySaleHappened : Bool
  sellerFeeBasisPoints : Nat
  offChainMetadata : Option OffChainMetadata := none
deriving DecidableEq, Repr

/-- `CachedTokenMetadata extends TokenMetadata` (meta.service.ts lines 11-16). -/
structure CachedTokenMetadata extends TokenMetadata where
  failed : Bool
  cachedAt : Nat
  attempts : Nat
  lastAttempt : Nat
deriving DecidableEq, Repr

/-- The two maps owned by `MetadataCacheService`: the entry map and the
pending-fetch set. -/
structure CacheState where
  cache : List (String × CachedTokenMetadata)
  pendingFetches : List String
deriving DecidableEq, Repr

def CACHE_EXPIRY_MS : Nat := 60 * 60 * 1000

def RETRY_DELAY_MS : Nat := 5 * 60 * 1000

def FAILED_ENTRY_MAX_AGE_MS : Nat := 24 * 60 * 60 * 1000

/-! ### MetadataCacheService operations (meta.service.ts) -/

/-- `get(mintAddress)` (lines 49-64): absent gives `null`; an entry whose age
exceeds `CACHE_EXPIRY_MS` is deleted and `null` returned (the source checks
`now - cached.cachedAt > CACHE_EXPIRY_MS` with no `failed` guard); otherwise
the entry is returned. Returns the result and the possibly-updated state. -/
def get (s : CacheState) (now : Nat) (mintAddress : String) :
    Option CachedTokenMetadata × CacheState :=
  match mapGet s.cache mintAddress with
  | none => (none, s)
  | some cached =>
    if now - cached.cachedAt > CACHE_EXPIRY_MS then
      (none, { s with cache := mapDelete s.cache mintAddress })
    else
      (some cached, s)

/-- `set(mintAddress, metadata)` (lines 69-80): overwrites with
`cachedAt = now`, `attempts = 1`, `lastAttempt = now`, `failed = false`. -/
def set (s : CacheState) (now : Nat) (mintAddress : String)
    (metadata : TokenMetadata) : CacheState :=
  { s with
    cache := mapSet s.cache mintAddress
      { toTokenMetadata := metadata
        failed := false
        cachedAt := now
        attempts := 1
        lastAttempt := now } }

/-- The placeholder failed entry `markFailedAttempt` fabricates for an id with
no prior entry (lines 93-107): empty descriptive fields, `failed = true`. -/
def failedEntry (mintAddress : String) (now : Nat) : CachedTokenMetadata :=
  { name := ""
    symbol := ""
    uri := ""
    mint := mintAddress
    updateAuthority := ""
    isMutable := false
    primarySaleHappened := false
    sellerFeeBasisPoints := 0
    offChainMetadata := none
    failed := true
    cachedAt := now
    attempts := 1
    lastAttempt := now }

/-- `markFailedAttempt(mintAddress)` (lines 85-110): existing entry gets
`attempts++` and `lastAttempt = now` (outcome flag untouched); otherwise a
fresh failed placeholder entry with `attempts = 1` is created. -/
def markFailedAttempt (s : CacheState) (now : Nat) (mintAddress : String) :
    CacheState :=
  match mapGet s.cache mintAddress with
  | some existing =>
    { s with
      cache := mapSet s.cache mintAddress
        { existing with
          attempts := existing.attempts + 1
          lastAttempt := now } }
  | none =>
    { s with cache := mapSet s.cache mintAddress (failedEntry mintAddress now) }

/-- `shouldRetry(mintAddress)` (lines 115-130): `true` with no entry; `false`
for a non-failed entry with a truthy (non-empty) `name`; otherwise the
cooldown check `now - lastAttempt > RETRY_DELAY_MS`. -/
def shouldRetry (s : CacheState) (now : Nat) (mintAddress : String) : Bool :=
  match mapGet s.cache mintAddress with
  | none => true
  | some cached =>
    if !cached.failed && cached.name != "" then
      false
    else
      decide (now - cached.lastAttempt > RETRY_DELAY_MS)

/-- `isFetching(mintAddress)` (lines 135-137). -/
def isFetching (s : CacheState) (mintAddress : String) : Bool :=
  s.pendingFetches.contains mintAddress

/-- `markFetching(mintAddress)` (lines 142-144): JS `Set.add`. -/
def markFetching (s : CacheState) (mintAddress : String) : CacheState :=
  if s.pendingFetches.contains mintAddress then s
  else { s with pendingFetches := s.pendingFetches ++ [mintAddress] }

/-- `markFetchCompleted(mintAddress)` (lines 149-151): JS `Set.delete`. -/
def markFetchCompleted (s : CacheState) (mintAddress : String) : CacheState :=
  { s with pendingFetches := s.pendingFetches.filter (fun x => x != mintAddress) }

/-- `getAll()` (lines 156-158): a snapshot copy of the entry map. -/
def getAll (s : CacheState) : List (String × CachedTokenMetadata) :=
  s.cache

/-! Case-insensitive substring containment, modelling JS
`a.toLowerCase().includes(b.toLowerCase())`. -/

def listStartsWith : List Char → List Char → Bool
  | _, [] => true
  | [], _ :: _ => false
  | a :: as, b :: bs => a == b && listStartsWith as bs

def listContainsSub : List Char → List Char → Bool
  | [], need => need.isEmpty
  | h :: t, need => listStartsWith (h :: t) need || listContainsSub t need

def strIncludes (hay need : String) : Bool :=
  listContainsSub hay.toList need.toList

/-- `search(query)` (lines 163-179): non-failed entries whose lowered name or
symbol contains the lowered query, in map iteration order. -/
def search (s : CacheState) (query : String) : List CachedTokenMetadata :=
  let searchTerm := query.toLower
  (s.cache.map (·.2)).filter (fun metadata =>
    !metadata.failed &&
      (strIncludes metadata.name.toLower searchTerm ||
       strIncludes metadata.symbol.toLower searchTerm))

/-- `getStats()` (lines 184-207). -/
def getStats (s : CacheState) : Nat × Nat × Nat × Nat :=
  let successful := ((s.cache.map (·.2)).filter (fun m => !m.failed)).length
  let failed := ((s.cache.map (·.2)).filter (fun m => m.failed)).length
  (s.cache.length, successful, failed, s.pendingFetches.length)

/-- `cleanup()` (lines 212-234): drop non-failed entries older than
`CACHE_EXPIRY_MS` and failed entries older than 24 hours. -/
def cleanup (s : CacheState) (now : Nat) : CacheState :=
  { s with
    cache := s.cache.filter (fun p =>
      let metadata := p.2
      let age := now - metadata.cachedAt
      if !metadata.failed && age > CACHE_EXPIRY_MS then false
      else if metadata.failed && age > FAILED_ENTRY_MAX_AGE_MS then false
      else true) }

/-- `clear()` (lines 247-252): empties both the entry map and the pending set. -/
def clear (_s : CacheState) : CacheState :=
  { cache := [], pendingFetches := [] }

/-! ### MetadataQueryService (metadata-query.service.ts)

Each projection is a state transformer `CacheState → ... → result × CacheState`
so that claims about (non-)mutation are statable.  `getByMint` delegates to the
cache's `get`, which can delete an expired entry; the remaining operations
iterate the `getAll()` snapshot and leave the state as they found it. -/

/-- `getByMint(mintAddress)` (lines 12-14): delegates to `get`. -/
def getByMint (s : CacheState) (now : Nat) (mintAddress : String) :
    Option CachedTokenMetadata × CacheState :=
  get s now mintAddress

/-- `search` on the query service (lines 19-21): delegates to the cache's
`search`, which only reads. -/
def querySearch (s : CacheState) (query : String) :
    List CachedTokenMetadata × CacheState :=
  (search s query, s)

/-- `getBySymbol(symbol)` (lines 26-38). -/
def getBySymbol (s : CacheState) (symbol : String) :
    List CachedTokenMetadata × CacheState :=
  ((getAll s |>.map (·.2)).filter (fun metadata =>
    !metadata.failed && metadata.symbol.toLower == symbol.toLower), s)

/-- `getByNameKeyword(keyword)` (lines 43-56). -/
def getByNameKeyword (s : CacheState) (keyword : String) :
    List CachedTokenMetadata × CacheState :=
  let searchTerm := keyword.toLower
  ((getAll s |>.map (·.2)).filter (fun metadata =>
    !metadata.failed && strIncludes metadata.name.toLower searchTerm), s)

/-- Descending insertion sort on `cachedAt`, modelling
`results.sort((a, b) => b.cachedAt - a.cachedAt)`. -/
def insertByCachedAtDesc (x : CachedTokenMetadata) :
    List CachedTokenMetadata → List CachedTokenMetadata
  | [] => [x]
  | y :: ys =>
    if x.cachedAt ≥ y.cachedAt then x :: y :: ys
    else y :: insertByCachedAtDesc x ys

def sortByCachedAtDesc (l : List CachedTokenMetadata) :
    List CachedTokenMetadata :=
  l.foldr insertByCachedAtDesc []

/-- `getRecent(minutesAgo)` (lines 61-75): non-failed entries with
`cachedAt ≥ now - minutesAgo*60*1000`, most recent first. -/
def getRecent (s : CacheState) (now : Nat) (minutesAgo : Nat) :
    List CachedTokenMetadata × CacheState :=
  let cutoffTime := now - minutesAgo * 60 * 1000
  (sortByCachedAtDesc ((getAll s |>.map (·.2)).filter (fun metadata =>
    !metadata.failed && metadata.cachedAt ≥ cutoffTime)), s)

/-- The optional filter record of `getByCharacteristics` (lines 80-87). -/
structure CharacteristicsFilters where
  isMutable : Option Bool := none
  primarySaleHappened : Option Bool := none
  hasImage : Option Bool := none
  hasDescription : Option Bool := none
  sellerFeeBasisPointsMin : Option Nat := none
  sellerFeeBasisPointsMax : Option Nat := none
deriving DecidableEq, Repr

/-- One entry's match against the filter record (lines 90-140): each present
field must agree (logical AND). -/
def matchesCharacteristics (filters : CharacteristicsFilters)
    (metadata : CachedTokenMetadata) : Bool :=
  (match filters.isMutable with
   | none => true
   | some b => metadata.isMutable == b) &&
  (match filters.primarySaleHappened with
   | none => true
   | some b => metadata.primarySaleHappened == b) &&
  (match filters.hasImage with
   | none => true
   | some b => (metadata.offChainMetadata.bind (·.image)).isSome == b) &&
  (match filters.hasDescription with
   | none => true
   | some b => (metadata.offChainMetadata.bind (·.description)).isSome == b) &&
  (match filters.sellerFeeBasisPointsMin with
   | none => true
   | some lo => decide (metadata.sellerFeeBasisPoints ≥ lo)) &&
  (match filters.sellerFeeBasisPointsMax with
   | none => true
   | some hi => decide (metadata.sellerFeeBasisPoints ≤ hi))

/-- `getByCharacteristics(filters)` (lines 80-143). -/
def getByCharacteristics (s : CacheState) (filters : CharacteristicsFilters) :
    List CachedTokenMetadata × CacheState :=
  ((getAll s |>.map (·.2)).filter (fun metadata =>
    !metadata.failed && matchesCharacteristics filters metadata), s)

/-- `getAllSuccessful()` (lines 148-158). -/
def getAllSuccessful (s : CacheState) :
    List CachedTokenMetadata × CacheState :=
  ((getAll s |>.map (·.2)).filter (fun metadata => !metadata.failed), s)

/-- The record returned by `getSummary()` (lines 173-209); the average fee is
kept as a rational to model the JS float division. -/
structure Summary where
  totalTokens : Nat
  uniqueSymbols : Nat
  tokensWithImages : Nat
  tokensWithDescriptions : Nat
  averageSellerFee : ℚ
  mutableTokens : Nat
  primarySalesCompleted : Nat
deriving DecidableEq, Repr

/-- `getSummary()` (lines 173-209), computed over `getAllSuccessful`. -/
def getSummary (s : CacheState) : Summary × CacheState :=
  let successful := (getAllSuccessful s).1
  let symbols := (successful.filterMap (fun m =>
    if m.symbol != "" then some m.symbol else none)).dedup
  let totalSellerFees : Nat := successful.foldl
    (fun acc m => acc + m.sellerFeeBasisPoints) 0
  ({ totalTokens := successful.length
     uniqueSymbols := symbols.length
     tokensWithImages := (successful.filter (fun m =>
       (m.offChainMetadata.bind (·.image)).isSome)).length
     tokensWithDescriptions := (successful.filter (fun m =>
       (m.offChainMetadata.bind (·.description)).isSome)).length
     averageSellerFee :=
       if successful.length > 0 then
         (totalSellerFees : ℚ) / (successful.length : ℚ)
       else 0
     mutableTokens := (successful.filter (·.isMutable)).length
     primarySalesCompleted :=
       (successful.filter (·.primarySaleHappened)).length }, s)

/-! ### StreamIngestor (GeyserService.handleData / formatData,
geyser.module.ts lines 244-281, 410-447) -/

def PUMP_FUN_PROGRAM_ID : String :=
  "6EF8rrecthR5Dkzon8Nwu78hRvfCKubJ14M5uBEwF6P"

def PUMP_FUN_MINT_AUTHORITY : String :=
  "TSLvdd1pWpHVjahSpsvCXUbgwsL3JAcvokwaKt1eokM"

def PUMP_FUN_CREATE_IX_DISCRIMINATOR : List Nat :=
  [24, 30, 200, 40, 5, 28, 7, 119]

/-- The 32 raw bytes whose base58 form is `PUMP_FUN_PROGRAM_ID`. -/
def pumpFunProgramIdBytes : List Nat :=
  [1, 86, 224, 246, 147, 102, 90, 207, 68, 219, 21, 104, 191, 23, 91, 170,
   81, 137, 203, 151, 245, 210, 255, 59, 101, 93, 43, 182, 253, 109, 24, 176]

/-- The 32 raw bytes whose base58 form is `PUMP_FUN_MINT_AUTHORITY`. -/
def pumpFunMintAuthorityBytes : List Nat :=
  [6, 197, 193, 206, 99, 141, 37, 103, 210, 100, 104, 176, 94, 185, 81, 209,
   162, 141, 204, 110, 18, 52, 130, 181, 198, 117, 20, 151, 112, 230, 43, 242]

/-- `CompiledInstruction` (geyser.module.ts lines 45-49); `accounts` are
indexes into the transaction's account-key table, `data` raw bytes. -/
structure CompiledInstruction where
  programIdIndex : Nat
  accounts : List Nat
  data : List Nat
deriving DecidableEq, Repr

/-- `Message` (lines 51-58), restricted to the fields the ingestor reads. -/
structure TxMessage where
  accountKeys : List (List Nat)
  instructions : List CompiledInstruction
deriving DecidableEq, Repr

/-- `transaction.transaction` inner object: carries the message. -/
structure TxInner where
  message : Option TxMessage
deriving DecidableEq, Repr

/-- `data.transaction.transaction`: the transaction info with the raw
signature bytes. -/
structure TxInfo where
  signature : List Nat
  transaction : Option TxInner
deriving DecidableEq, Repr

/-- `SubscribeUpdateTransaction`: slot plus the transaction info. -/
structure SubscribeUpdateTransaction where
  slot : String
  transaction : Option TxInfo
deriving DecidableEq, Repr

/-- An inbound stream message; `transaction = none` models a message that is
not a transaction update (fails `isSubscribeUpdateTransaction`). -/
structure SubscribeUpdate where
  filters : List String
  transaction : Option SubscribeUpdateTransaction
deriving DecidableEq, Repr

/-- The `pumpfun.mint.detected` payload built by `formatData`
(`FormattedTransactionData` with the single configured account `mint`). -/
structure DetectedEvent where
  signature : String
  slot : String
  mint : String
deriving DecidableEq, Repr

/-- `matchesInstructionDiscriminator(ix)` (lines 440-447): the leading 8 data
bytes equal the create-instruction discriminator (a `Uint8Array` is always
truthy, so the `ix?.data &&` guard never rejects). -/
def matchesInstructionDiscriminator (ix : CompiledInstruction) : Bool :=
  ix.data.take 8 == PUMP_FUN_CREATE_IX_DISCRIMINATOR

/-- `formatData(message, signature, slot)` (lines 410-438): find the first
matching instruction, resolve its operand index 0 through the account-key
table, and base58-encode that key as `mint`.  The source would throw on an
out-of-range operand or key index (`new PublicKey(undefined)`); that is
modelled as `none`. -/
def formatData (message : TxMessage) (signature slot : String) :
    Option DetectedEvent :=
  match message.instructions.find? matchesInstructionDiscriminator with
  | none => none
  | some matchingInstruction =>
    match matchingInstruction.accounts.get? 0 with
    | none => none
    | some accountIndex =>
      match message.accountKeys.get? accountIndex with
      | none => none
      | some key =>
        some { signature := signature, slot := slot, mint := base58Encode key }

/-- `handleData(data)` (lines 244-281), up to the emission of the
`pumpfun.mint.detected` event: shape and filter-tag guards, the
instruction-discriminator scan, then `formatData`.  Returns the emitted
`DetectedEvent`, or `none` when the message is dropped. -/
def handleData (data : SubscribeUpdate) : Option DetectedEvent :=
  match data.transaction with
  | none => none
  | some tu =>
    if !data.filters.contains "pumpFun" then none
    else
      match tu.transaction with
      | none => none
      | some transaction =>
        match transaction.transaction with
        | none => none
        | some inner =>
          match inner.message with
          | none => none
          | some message =>
            match message.instructions.find? matchesInstructionDiscriminator with
            | none => none
            | some _ =>
              formatData message (base58Encode transaction.signature) tu.slot

/-! ### EnrichmentOrchestrator (GeyserService.fetchMetadataWithRetry,
geyser.module.ts lines 283-371) -/

def MAX_RETRIES : Nat := 3

/-- The structural content of a `pumpfun.metadata.found` payload's `metadata`
field.  The cached-path emission (line 292) passes the cache entry, whose JS
object carries the bookkeeping fields `failed`/`cachedAt`/`attempts`/
`lastAttempt`; the fresh-path emission (line 341) passes the bare
`TokenMetadata`, which has none of them.  The `Option` bookkeeping fields
record that structural difference. -/
structure EmittedMetadata where
  name : String
  symbol : String
  uri : String
  mint : String
  updateAuthority : String
  isMutable : Bool
  primarySaleHappened : Bool
  sellerFeeBasisPoints : Nat
  offChainMetadata : Option OffChainMetadata
  failed : Option Bool
  cachedAt : Option Nat
  attempts : Option Nat
  lastAttempt : Option Nat
deriving DecidableEq, Repr

/-- The fresh-path payload metadata (`this.eventEmitter.emit(..., metadata)`
with a bare `TokenMetadata`). -/
def EmittedMetadata.ofToken (m : TokenMetadata) : EmittedMetadata :=
  { name := m.name
    symbol := m.symbol
    uri := m.uri
    mint := m.mint
    updateAuthority := m.updateAuthority
    isMutable := m.isMutable
    primarySaleHappened := m.primarySaleHappened
    sellerFeeBasisPoints := m.sellerFeeBasisPoints
    offChainMetadata := m.offChainMetadata
    failed := none
    cachedAt := none
    attempts := none
    lastAttempt := none }

/-- The cached-path payload metadata (`this.eventEmitter.emit(..., cached)`
with the full `CachedTokenMetadata`). -/
def EmittedMetadata.ofCached (c : CachedTokenMetadata) : EmittedMetadata :=
  { name := c.name
    symbol := c.symbol
    uri := c.uri
    mint := c.mint
    updateAuthority := c.updateAuthority
    isMutable := c.isMutable
    primarySaleHappened := c.primarySaleHappened
    sellerFeeBasisPoints := c.sellerFeeBasisPoints
    offChainMetadata := c.offChainMetadata
    failed := some c.failed
    cachedAt := some c.cachedAt
    attempts := some c.attempts
    lastAttempt := some c.lastAttempt }

/-- A `pumpfun.metadata.found` notification `{ mintAddress, metadata }`. -/
structure FoundEvent where
  mintAddress : String
  metadata : EmittedMetadata
deriving DecidableEq, Repr

/-- Externally observable outcome of one retry attempt, as decided by the
`MetadataService` collaborator (and the event listeners):
* `existsFalse`: `metadataAccountExists` resolves `false` (it catches its own
  transport errors and returns `false`, so the probe itself never throws);
* `fetchNone`: the probe resolves `true` but `getPumpFunTokenMetadata`
  resolves `null` (it, too, absorbs its own errors);
* `fetchSome m`: the probe resolves `true` and the fetch returns `m`;
* `throwErr`: something inside the attempt's `try` block throws before any
  cache write — the inner `catch` logs and the loop continues. -/
inductive AttemptOutcome where
  | existsFalse : AttemptOutcome
  | fetchNone : AttemptOutcome
  | fetchSome : TokenMetadata → AttemptOutcome
  | throwErr : AttemptOutcome
deriving DecidableEq, Repr

/-- The oracle's answer for one attempt: the `Date.now()` timestamp in effect
during the attempt, and its outcome. -/
structure Attempt where
  time : Nat
  outcome : AttemptOutcome
deriving DecidableEq, Repr

/-- Counters and notifications accumulated by one orchestration run. -/
structure RunAcc where
  found : List FoundEvent
  existsCalls : Nat
  fetchCalls : Nat
  categorizationSent : Nat
deriving DecidableEq, Repr

def RunAcc.empty : RunAcc :=
  { found := [], existsCalls := 0, fetchCalls := 0, categorizationSent := 0 }

/-- The retry loop of `fetchMetadataWithRetry` (lines 312-363).  `attempt` is
the 1-based attempt number, `fuel` the number of attempts left
(`maxRetries - attempt + 1`); returns whether the loop early-returned on
success, plus the state and accumulator. -/
def retryLoop (oracle : Nat → Attempt) (mintAddress : String)
    (maxRetries : Nat) :
    Nat → Nat → CacheState → RunAcc → Bool × CacheState × RunAcc
  | _, 0, s, acc => (false, s, acc)
  | attempt, fuel + 1, s, acc =>
    let a := oracle attempt
    match a.outcome with
    | .throwErr =>
      -- inner catch: log and fall through to the next attempt
      retryLoop oracle mintAddress maxRetries (attempt + 1) fuel s acc
    | .existsFalse =>
      let acc := { acc with existsCalls := acc.existsCalls + 1 }
      -- on the final attempt, record the failure and continue the loop
      let s := if attempt == maxRetries then markFailedAttempt s a.time mintAddress
               else s
      retryLoop oracle mintAddress maxRetries (attempt + 1) fuel s acc
    | .fetchNone =>
      let acc := { acc with
        existsCalls := acc.existsCalls + 1
        fetchCalls := acc.fetchCalls + 1 }
      retryLoop oracle mintAddress maxRetries (attempt + 1) fuel s acc
    | .fetchSome metadata =>
      let acc := { acc with
        existsCalls := acc.existsCalls + 1
        fetchCalls := acc.fetchCalls + 1 }
      let s := set s a.time mintAddress metadata
      let acc := { acc with
        found := acc.found ++ [{ mintAddress := mintAddress,
                                 metadata := .ofToken metadata }]
        categorizationSent := acc.categorizationSent + 1 }
      (true, s, acc)

/-- Result of one `fetchMetadataWithRetry` run; `markedPending` records
whether the run reached `markFetching` (step 4 of the orchestrator contract). -/
structure OrchResult where
  state : CacheState
  found : List FoundEvent
  existsCalls : Nat
  fetchCalls : Nat
  categorizationSent : Nat
  markedPending : Bool
deriving DecidableEq, Repr

/-- The tail of `fetchMetadataWithRetry` after the cached-success early
return (lines 299-371): the `shouldRetry` and `isFetching` guards, then
`markFetching`, the retry loop, the post-loop `markFailedAttempt` when no
attempt succeeded, and the `finally { markFetchCompleted }`. -/
def fetchMetadataWithRetryRest (s1 : CacheState) (startTime : Nat)
    (oracle : Nat → Attempt) (endTime : Nat) (mintAddress : String)
    (maxRetries : Nat) : OrchResult :=
  if !shouldRetry s1 startTime mintAddress then
    { state := s1, found := [], existsCalls := 0, fetchCalls := 0,
      categorizationSent := 0, markedPending := false }
  else if isFetching s1 mintAddress then
    { state := s1, found := [], existsCalls := 0, fetchCalls := 0,
      categorizationSent := 0, markedPending := false }
  else
    let s2 := markFetching s1 mintAddress
    let (success, s3, acc) :=
      retryLoop oracle mintAddress maxRetries 1 maxRetries s2 RunAcc.empty
    let s4 := if success then s3 else markFailedAttempt s3 endTime mintAddress
    let s5 := markFetchCompleted s4 mintAddress
    { state := s5
      found := acc.found
      existsCalls := acc.existsCalls
      fetchCalls := acc.fetchCalls
      categorizationSent := acc.categorizationSent
      markedPending := true }

/-- `fetchMetadataWithRetry(mintAddress, maxRetries, delayMs)` (lines
283-371).  `startTime` is `Date.now()` at entry (the `get`/`shouldRetry`
guards), `oracle` supplies each attempt's timestamp and outcome, `endTime`
is `Date.now()` at the post-loop `markFailedAttempt`.  A cached non-failed
entry short-circuits with a notification and no client call. -/
def fetchMetadataWithRetry (s : CacheState) (startTime : Nat)
    (oracle : Nat → Attempt) (endTime : Nat) (mintAddress : String)
    (maxRetries : Nat) : OrchResult :=
  let (cachedOpt, s1) := get s startTime mintAddress
  match cachedOpt with
  | some cached =>
    if !cached.failed then
      { state := s1
        found := [{ mintAddress := mintAddress, metadata := .ofCached cached }]
        existsCalls := 0
        fetchCalls := 0
        categorizationSent := 0
        markedPending := false }
    else
      fetchMetadataWithRetryRest s1 startTime oracle endTime mintAddress
        maxRetries
  | none =>
    fetchMetadataWithRetryRest s1 startTime oracle endTime mintAddress
      maxRetries

/-! ### Sample data for concrete witnesses and counterexamples -/

def sampleMetadata : TokenMetadata :=
  { name := "TestToken"
    symbol := "TT"
    uri := "https://example.com/meta.json"
    mint := "m"
    updateAuthority := "auth"
    isMutable := true
    primarySaleHappened := false
    sellerFeeBasisPoints := 5 }

def sampleSuccessEntry (now : Nat) : CachedTokenMetadata :=
  { toTokenMetadata := sampleMetadata
    failed := false
    cachedAt := now
    attempts := 1
    lastAttempt := now }

def emptyState : CacheState := { cache := [], pendingFetches := [] }

/-- Oracle whose existence probe always resolves `false`. -/
def oracleAllExistsFalse : Nat → Attempt :=
  fun n => { time := n, outcome := .existsFalse }

/-- Oracle for the probe-fails-then-fetch-succeeds scenario: attempt 1 sees no
metadata account, attempt 2 fetches `sampleMetadata`. -/
def oracleSecondAttemptFetch : Nat → Attempt :=
  fun n =>
    if n == 1 then { time := 10, outcome := .existsFalse }
    else { time := 20, outcome := .fetchSome sampleMetadata }

/-- Oracle whose first attempt fetch succeeds with `sampleMetadata`. -/
def oracleImmediateFetch : Nat → Attempt :=
  fun _ => { time := 0, outcome := .fetchSome sampleMetadata }

/-- A first enrichment run: empty cache, fetch succeeds on attempt 1. -/
def firstEnrichRun : OrchResult :=
  fetchMetadataWithRetry emptyState 0 oracleImmediateFetch 0 "m" MAX_RETRIES

/-- A second enrichment run for the same id against the cache produced by
`firstEnrichRun` (the oracle is never consulted on the cached path). -/
def secondEnrichRun : OrchResult :=
  fetchMetadataWithRetry firstEnrichRun.state 1 oracleAllExistsFalse 1 "m"
    MAX_RETRIES

/-- A concrete 32-byte account key standing for a freshly created mint. -/
def sampleMintKeyBytes : List Nat :=
  [5, 4, 3, 2, 1, 10, 11, 12, 13, 14, 15, 16, 17, 18, 19, 20,
   21, 22, 23, 24, 25, 26, 27, 28, 29, 30, 31, 32, 33, 34, 35, 36]

/-- A concrete create instruction: discriminator bytes, operand 0 referencing
account-key index 2 (the mint). -/
def sampleDetectIx : CompiledInstruction :=
  { programIdIndex := 0
    accounts := [2]
    data := PUMP_FUN_CREATE_IX_DISCRIMINATOR }

def sampleDetectMessage : TxMessage :=
  { accountKeys := [pumpFunProgramIdBytes, pumpFunMintAuthorityBytes,
                    sampleMintKeyBytes]
    instructions := [sampleDetectIx] }

def sampleDetectInner : TxInner := { message := some sampleDetectMessage }

def sampleDetectTxInfo : TxInfo :=
  { signature := [9, 9, 9], transaction := some sampleDetectInner }

def sampleDetectTu : SubscribeUpdateTransaction :=
  { slot := "42", transaction := some sampleDetectTxInfo }

/-- A concrete matching stream message. -/
def sampleDetectUpdate : SubscribeUpdate :=
  { filters := ["pumpFun"], transaction := some sampleDetectTu }

/-! ## Theorems -/

theorem mapGet_cons {α : Type} (p : String × α) (t : List (String × α))
    (k : String) :
    mapGet (p :: t) k = if p.1 == k then some p.2 else mapGet t k := by
  by_cases hp : (p.1 == k) = true
  · simp [mapGet, List.find?, hp]
  · simp [mapGet, List.find?, hp]

theorem mapGet_mapSet_self {α : Type} (l : List (String × α)) (k : String)
    (v : α) :
    mapGet (mapSet l k v) k = some v := by
  induction l with
  | nil => simp [mapSet, mapGet, List.find?]
  | cons p t ih =>
    by_cases hp : (p.1 == k) = true
    · have hpe : p.1 = k := by simpa using hp
      have hset : mapSet (p :: t) k v =
          (k, v) :: t.map (fun q => if q.1 == k then (k, v) else q) := by
        simp [mapSet, hpe]
      rw [hset, mapGet_cons]
      simp
    · have hpe : ¬p.1 = k := by simpa using hp
      by_cases ht : (t.any (fun q => q.1 == k)) = true
      · have hset : mapSet (p :: t) k v = p :: mapSet t k v := by
          simp [mapSet, List.any_cons, hpe, ht]
        rw [hset, mapGet_cons, if_neg (by simp [hpe])]
        exact ih
      · have hset : mapSet (p :: t) k v = p :: mapSet t k v := by
          simp [mapSet, List.any_cons, hpe, ht]
        rw [hset, mapGet_cons, if_neg (by simp [hpe])]
        exact ih


/-- C10: after `clear()` the entry map and the pending set are both empty —
`get` returns absent and `isFetching` returns false for every identifier,
including ids whose in-flight dedup guard is thereby removed. -/
theorem clear_empties_cache_and_pending (s : CacheState) (now : Nat)
    (id : String) :
    (get (clear s) now id).1 = none ∧ isFetching (clear s) id = false ∧
    (clear s).cache = [] ∧ (clear s).pendingFetches = [] := by
  simp [clear, get, mapGet, isFetching]

/-- C3 (amended): `get` applies the same `CACHE_EXPIRY_MS` age check to
failed entries as to success entries — a failed entry no older than the
window is returned with the state unchanged, but one strictly older is
removed and reported absent (the failure TTL applies only at `cleanup`). -/
theorem get_failed_entry_expiry (s : CacheState) (now : Nat) (mint : String)
    (e : CachedTokenMetadata) (he : mapGet s.cache mint = some e)
    (hf : e.failed = true) :
    (now - e.cachedAt ≤ CACHE_EXPIRY_MS → get s now mint = (some e, s)) ∧
    (now - e.cachedAt > CACHE_EXPIRY_MS →
      get s now mint = (none, { s with cache := mapDelete s.cache mint })) := by
  constructor
  · intro h
    simp only [get, he]
    rw [if_neg (by omega)]
  · intro h
    simp only [get, he]
    rw [if_pos h]

/-- C3 counterexample: a failed entry one millisecond past `CACHE_EXPIRY_MS`
is treated as expired by `get`: it is reported absent and deleted, refuting
"get never treats a failed entry as expired / does not remove it". -/
theorem get_failed_entry_expired_removed :
    (get { cache := [("m", failedEntry "m" 0)], pendingFetches := [] }
        (CACHE_EXPIRY_MS + 1) "m").1 = none ∧
    (get { cache := [("m", failedEntry "m" 0)], pendingFetches := [] }
        (CACHE_EXPIRY_MS + 1) "m").2.cache = [] := by
  decide

/-- C3 witness: concrete unexpired failed entry is returned unchanged. -/
theorem get_failed_entry_expiry_witness :
    mapGet ({ cache := [("m", failedEntry "m" 0)],
              pendingFetches := [] } : CacheState).cache "m" =
      some (failedEntry "m" 0) ∧
    (failedEntry "m" 0).failed = true ∧
    5 - (failedEntry "m" 0).cachedAt ≤ CACHE_EXPIRY_MS ∧
    get { cache := [("m", failedEntry "m" 0)], pendingFetches := [] } 5 "m" =
      (some (failedEntry "m" 0),
       { cache := [("m", failedEntry "m" 0)], pendingFetches := [] }) :=
  ⟨by decide, by decide, by decide,
   (get_failed_entry_expiry _ 5 "m" _ (by decide) (by decide)).1 (by decide)⟩

/-- C4: immediately after `set(id, m)` and at every time at most
`CACHE_EXPIRY_MS` later, `get(id)` returns a success (non-failed) entry whose
metadata fields equal `m`; strictly later than that, `get(id)` is absent. -/
theorem put_then_get_success_ttl (s : CacheState) (now t : Nat)
    (mint : String) (m : TokenMetadata) :
    (t - now ≤ CACHE_EXPIRY_MS →
      (get (set s now mint m) t mint).1 =
        some { toTokenMetadata := m, failed := false, cachedAt := now,
               attempts := 1, lastAttempt := now }) ∧
    (t - now > CACHE_EXPIRY_MS → (get (set s now mint m) t mint).1 = none) := by
  constructor
  · intro h
    simp only [get, set, mapGet_mapSet_self]
    rw [if_neg (by simp; omega)]
  · intro h
    simp only [get, set, mapGet_mapSet_self]
    rw [if_pos (by simpa using h)]

/-- C4 witness: concrete put-then-get, inside and past the TTL. -/
theorem put_then_get_success_ttl_witness :
    (3 - 2 ≤ CACHE_EXPIRY_MS ∧
      (get (set emptyState 2 "m" sampleMetadata) 3 "m").1 =
        some { toTokenMetadata := sampleMetadata, failed := false,
               cachedAt := 2, attempts := 1, lastAttempt := 2 }) ∧
    (CACHE_EXPIRY_MS + 3 - 2 > CACHE_EXPIRY_MS ∧
      (get (set emptyState 2 "m" sampleMetadata) (CACHE_EXPIRY_MS + 3) "m").1 =
        none) :=
  ⟨⟨by decide,
    (put_then_get_success_ttl emptyState 2 3 "m" sampleMetadata).1 (by decide)⟩,
   ⟨by decide,
    (put_then_get_success_ttl emptyState 2 (CACHE_EXPIRY_MS + 3) "m"
      sampleMetadata).2 (by decide)⟩⟩

/-- C5: `shouldRetry` is true with no entry; false for a success entry
(non-failed with non-empty name, per the spec invariant on success entries);
for a failed entry it is true exactly when `now - lastAttempt` exceeds
`RETRY_DELAY_MS`; and for an id with no prior entry, `markFailedAttempt`
immediately followed by `shouldRetry` yields false, becoming true once the
cooldown has passed. -/
theorem shouldRetry_contract (s : CacheState) (now t : Nat) (mint : String) :
    (mapGet s.cache mint = none → shouldRetry s now mint = true) ∧
    (∀ e, mapGet s.cache mint = some e → e.failed = false → e.name ≠ "" →
      shouldRetry s now mint = false) ∧
    (∀ e, mapGet s.cache mint = some e → e.failed = true →
      (shouldRetry s now mint = true ↔ now - e.lastAttempt > RETRY_DELAY_MS)) ∧
    (mapGet s.cache mint = none →
      shouldRetry (markFailedAttempt s t mint) t mint = false) ∧
    (mapGet s.cache mint = none → now - t > RETRY_DELAY_MS →
      shouldRetry (markFailedAttempt s t mint) now mint = true) := by
  refine ⟨?_, ?_, ?_, ?_, ?_⟩
  · intro h
    simp [shouldRetry, h]
  · intro e he hf hn
    simp [shouldRetry, he, hf, hn]
  · intro e he hf
    simp [shouldRetry, he, hf]
  · intro h
    simp [shouldRetry, markFailedAttempt, h, mapGet_mapSet_self, failedEntry]
  · intro h hd
    simp [shouldRetry, markFailedAttempt, h, mapGet_mapSet_self, failedEntry, hd]

/-- C5 witness: each branch of the contract at a concrete cache state. -/
theorem shouldRetry_contract_witness :
    shouldRetry emptyState 0 "m" = true ∧
    shouldRetry { cache := [("m", sampleSuccessEntry 0)],
                  pendingFetches := [] } 0 "m" = false ∧
    (shouldRetry { cache := [("m", failedEntry "m" 0)],
                   pendingFetches := [] } (RETRY_DELAY_MS + 1) "m" = true ↔
      RETRY_DELAY_MS + 1 - (failedEntry "m" 0).lastAttempt > RETRY_DELAY_MS) ∧
    shouldRetry (markFailedAttempt emptyState 7 "m") 7 "m" = false ∧
    shouldRetry (markFailedAttempt emptyState 7 "m")
      (7 + RETRY_DELAY_MS + 1) "m" = true :=
  ⟨(shouldRetry_contract emptyState 0 0 "m").1 (by decide),
   (shouldRetry_contract _ 0 0 "m").2.1 (sampleSuccessEntry 0) (by decide)
     (by decide) (by decide),
   (shouldRetry_contract _ (RETRY_DELAY_MS + 1) 0 "m").2.2.1 (failedEntry "m" 0)
     (by decide) (by decide),
   (shouldRetry_contract emptyState 0 7 "m").2.2.2.1 (by decide),
   (shouldRetry_contract emptyState (7 + RETRY_DELAY_MS + 1) 7 "m").2.2.2.2
     (by decide) (by decide)⟩

/-- C6 (amended): every query projection except get-by-id leaves the cache
state exactly as it found it; get-by-id leaves it unchanged when the entry is
absent or unexpired, and removes the entry when its age exceeds the success
TTL (the expiry side effect of the underlying `get`). -/
theorem projection_state_effects (s : CacheState) (now minutesAgo : Nat)
    (q sym kw mint : String) (filters : CharacteristicsFilters) :
    (querySearch s q).2 = s ∧
    (getBySymbol s sym).2 = s ∧
    (getByNameKeyword s kw).2 = s ∧
    (getRecent s now minutesAgo).2 = s ∧
    (getByCharacteristics s filters).2 = s ∧
    (getAllSuccessful s).2 = s ∧
    (getSummary s).2 = s ∧
    (mapGet s.cache mint = none → (getByMint s now mint).2 = s) ∧
    (∀ e, mapGet s.cache mint = some e → now - e.cachedAt ≤ CACHE_EXPIRY_MS →
      (getByMint s now mint).2 = s) ∧
    (∀ e, mapGet s.cache mint = some e → now - e.cachedAt > CACHE_EXPIRY_MS →
      (getByMint s now mint).2 = { s with cache := mapDelete s.cache mint }) := by
  refine ⟨rfl, rfl, rfl, rfl, rfl, rfl, rfl, ?_, ?_, ?_⟩
  · intro h
    simp [getByMint, get, h]
  · intro e he h
    simp only [getByMint, get, he]
    rw [if_neg (by omega)]
  · intro e he h
    simp only [getByMint, get, he]
    rw [if_pos h]

/-- C6 counterexample: `getByMint` on an entry older than the success TTL
mutates the cache state (the entry is deleted), refuting "no projection
operation mutates cache state". -/
theorem getByMint_mutates_on_expired :
    (getByMint { cache := [("m", sampleSuccessEntry 0)], pendingFetches := [] }
        (CACHE_EXPIRY_MS + 1) "m").2 ≠
      { cache := [("m", sampleSuccessEntry 0)], pendingFetches := [] } := by
  decide

/-- C6 witness: concrete unexpired lookup leaves the state unchanged; the
expired lookup removes exactly the entry. -/
theorem projection_state_effects_witness :
    mapGet ({ cache := [("m", sampleSuccessEntry 0)],
              pendingFetches := [] } : CacheState).cache "m" =
      some (sampleSuccessEntry 0) ∧
    5 - (sampleSuccessEntry 0).cachedAt ≤ CACHE_EXPIRY_MS ∧
    (getByMint { cache := [("m", sampleSuccessEntry 0)], pendingFetches := [] }
        5 "m").2 =
      { cache := [("m", sampleSuccessEntry 0)], pendingFetches := [] } ∧
    CACHE_EXPIRY_MS + 1 - (sampleSuccessEntry 0).cachedAt > CACHE_EXPIRY_MS ∧
    (getByMint { cache := [("m", sampleSuccessEntry 0)], pendingFetches := [] }
        (CACHE_EXPIRY_MS + 1) "m").2 =
      { cache := mapDelete [("m", sampleSuccessEntry 0)] "m",
        pendingFetches := [] } :=
  ⟨by decide, by decide,
   (projection_state_effects _ 5 0 "" "" "" "m" {}).2.2.2.2.2.2.2.2.1
     (sampleSuccessEntry 0) (by decide) (by decide),
   by decide,
   (projection_state_effects _ (CACHE_EXPIRY_MS + 1) 0 "" "" "" "m"
      {}).2.2.2.2.2.2.2.2.2 (sampleSuccessEntry 0) (by decide) (by decide)⟩

/-- Helper: once the orchestrator tail marks the id pending, its final state
never contains the id in the pending set (the `finally` discipline). -/
theorem rest_markedPending_clears (s1 : CacheState) (startTime endTime : Nat)
    (oracle : Nat → Attempt) (mint : String) (maxRetries : Nat)
    (h : (fetchMetadataWithRetryRest s1 startTime oracle endTime mint
            maxRetries).markedPending = true) :
    mint ∉ (fetchMetadataWithRetryRest s1 startTime oracle endTime mint
              maxRetries).state.pendingFetches := by
  unfold fetchMetadataWithRetryRest at h ⊢
  by_cases h1 : (!shouldRetry s1 startTime mint) = true
  · rw [if_pos h1] at h
    simp at h
  · rw [if_neg h1] at h ⊢
    by_cases h2 : isFetching s1 mint = true
    · rw [if_pos h2] at h
      simp at h
    · rw [if_neg h2] at h ⊢
      rcases hres : retryLoop oracle mint maxRetries 1 maxRetries
        (markFetching s1 mint) RunAcc.empty with ⟨succ, s3, acc⟩
      simp only [hres]
      simp [markFetchCompleted, List.mem_filter]

/-- C2: an `enrich` execution that reaches `markFetching` always ends with the
pending marker for the id cleared, on every exit path (success, retry
exhaustion, or an attempt whose body threw), for every oracle behaviour. -/
theorem pending_cleared_on_all_paths (s : CacheState) (startTime endTime : Nat)
    (oracle : Nat → Attempt) (mint : String) (maxRetries : Nat)
    (h : (fetchMetadataWithRetry s startTime oracle endTime mint
            maxRetries).markedPending = true) :
    mint ∉ (fetchMetadataWithRetry s startTime oracle endTime mint
              maxRetries).state.pendingFetches := by
  unfold fetchMetadataWithRetry at h ⊢
  rcases hg : get s startTime mint with ⟨cachedOpt, s1⟩
  simp only [hg] at h ⊢
  cases cachedOpt with
  | none =>
    exact rest_markedPending_clears s1 startTime endTime oracle mint maxRetries h
  | some cached =>
    by_cases hf : cached.failed = true
    · simp only [hf] at h ⊢
      exact rest_markedPending_clears s1 startTime endTime oracle mint maxRetries h
    · simp only [Bool.not_eq_true] at hf
      simp [hf] at h

/-- C2 witness: a run that marks pending (empty cache, probe always false)
ends with the id absent from the pending set. -/
theorem pending_cleared_on_all_paths_witness :
    (fetchMetadataWithRetry emptyState 0 oracleAllExistsFalse 0 "m"
        MAX_RETRIES).markedPending = true ∧
    "m" ∉ (fetchMetadataWithRetry emptyState 0 oracleAllExistsFalse 0 "m"
        MAX_RETRIES).state.pendingFetches :=
  ⟨by decide,
   pending_cleared_on_all_paths emptyState 0 0 oracleAllExistsFalse "m"
     MAX_RETRIES (by decide)⟩

/-- Helper: `markFetching` only touches the pending set, never the entry map. -/
theorem markFetching_cache (s : CacheState) (mint : String) :
    (markFetching s mint).cache = s.cache := by
  unfold markFetching
  split <;> rfl

/-- C1 (amended): with no prior cache entry and the existence probe false on
all 3 attempts, no metadata fetch is ever invoked and the run ends with a
failed cache entry whose attempts counter equals 2 — `markFailedAttempt` runs
once inside the loop on the final attempt (which continues normally rather
than early-returning) and once more after the loop. -/
theorem retryExhaustion_no_fetch_failed_entry (s : CacheState)
    (startTime endTime t1 t2 t3 : Nat) (oracle : Nat → Attempt) (mint : String)
    (hnone : mapGet s.cache mint = none)
    (hnp : isFetching s mint = false)
    (h1 : oracle 1 = { time := t1, outcome := .existsFalse })
    (h2 : oracle 2 = { time := t2, outcome := .existsFalse })
    (h3 : oracle 3 = { time := t3, outcome := .existsFalse }) :
    (fetchMetadataWithRetry s startTime oracle endTime mint
        MAX_RETRIES).fetchCalls = 0 ∧
    (fetchMetadataWithRetry s startTime oracle endTime mint
        MAX_RETRIES).existsCalls = 3 ∧
    mapGet (fetchMetadataWithRetry s startTime oracle endTime mint
        MAX_RETRIES).state.cache mint =
      some { failedEntry mint t3 with attempts := 2, lastAttempt := endTime } := by
  simp only [fetchMetadataWithRetry, get, hnone]
  simp only [fetchMetadataWithRetryRest, shouldRetry, hnone, Bool.not_true,
    Bool.false_eq_true, if_false, hnp]
  simp only [MAX_RETRIES, retryLoop, h1, h2, h3]
  simp [markFetchCompleted, markFailedAttempt, hnone, mapGet_mapSet_self,
    markFetching_cache, failedEntry, RunAcc.empty]

/-- C1 counterexample: in the concrete all-probes-false run the failed entry's
attempts counter is 2, not the claimed 3 (no fetch occurs, as claimed). -/
theorem retryExhaustion_attempts_ne_three :
    (fetchMetadataWithRetry emptyState 0 oracleAllExistsFalse 0 "m"
        MAX_RETRIES).fetchCalls = 0 ∧
    (mapGet (fetchMetadataWithRetry emptyState 0 oracleAllExistsFalse 0 "m"
        MAX_RETRIES).state.cache "m").map (·.attempts) = some 2 ∧
    (mapGet (fetchMetadataWithRetry emptyState 0 oracleAllExistsFalse 0 "m"
        MAX_RETRIES).state.cache "m").map (·.attempts) ≠ some 3 := by
  decide

/-- C1 witness: concrete all-probes-false run from the empty cache. -/
theorem retryExhaustion_no_fetch_failed_entry_witness :
    mapGet emptyState.cache "m" = none ∧
    isFetching emptyState "m" = false ∧
    ((fetchMetadataWithRetry emptyState 0 oracleAllExistsFalse 7 "m"
        MAX_RETRIES).fetchCalls = 0 ∧
     (fetchMetadataWithRetry emptyState 0 oracleAllExistsFalse 7 "m"
        MAX_RETRIES).existsCalls = 3 ∧
     mapGet (fetchMetadataWithRetry emptyState 0 oracleAllExistsFalse 7 "m"
        MAX_RETRIES).state.cache "m" =
       some { failedEntry "m" 3 with attempts := 2, lastAttempt := 7 }) :=
  ⟨by decide, by decide,
   retryExhaustion_no_fetch_failed_entry emptyState 0 7 1 2 3
     oracleAllExistsFalse "m" (by decide) (by decide) (by decide) (by decide)
     (by decide)⟩

/-- C8 (amended): with no prior entry, probe false on attempt 1 and fetch
success on attempt 2, the run emits exactly one metadata-found notification
and the cache ends with a success entry whose attempts counter equals 1 —
`set` unconditionally writes `attempts = 1`, so the claimed "at least 2" does
not hold. -/
theorem second_attempt_success_entry (s : CacheState)
    (startTime endTime t1 t2 : Nat) (oracle : Nat → Attempt) (mint : String)
    (m : TokenMetadata)
    (hnone : mapGet s.cache mint = none)
    (hnp : isFetching s mint = false)
    (h1 : oracle 1 = { time := t1, outcome := .existsFalse })
    (h2 : oracle 2 = { time := t2, outcome := .fetchSome m }) :
    (fetchMetadataWithRetry s startTime oracle endTime mint
        MAX_RETRIES).found =
      [{ mintAddress := mint, metadata := .ofToken m }] ∧
    (fetchMetadataWithRetry s startTime oracle endTime mint
        MAX_RETRIES).fetchCalls = 1 ∧
    mapGet (fetchMetadataWithRetry s startTime oracle endTime mint
        MAX_RETRIES).state.cache mint =
      some { toTokenMetadata := m, failed := false, cachedAt := t2,
             attempts := 1, lastAttempt := t2 } := by
  simp only [fetchMetadataWithRetry, get, hnone]
  simp only [fetchMetadataWithRetryRest, shouldRetry, hnone, Bool.not_true,
    Bool.false_eq_true, if_false, hnp]
  simp only [MAX_RETRIES, retryLoop, h1, h2]
  simp [markFetchCompleted, set, hnone, mapGet_mapSet_self,
    markFetching_cache, RunAcc.empty]

/-- C8 counterexample: in the concrete probe-false-then-fetch run the success
entry's attempts counter is 1; the claimed "at least 2" is false. -/
theorem second_attempt_success_attempts_one :
    (fetchMetadataWithRetry emptyState 0 oracleSecondAttemptFetch 0 "m"
        MAX_RETRIES).found.length = 1 ∧
    (mapGet (fetchMetadataWithRetry emptyState 0 oracleSecondAttemptFetch 0 "m"
        MAX_RETRIES).state.cache "m").map (·.attempts) = some 1 ∧
    (mapGet (fetchMetadataWithRetry emptyState 0 oracleSecondAttemptFetch 0 "m"
        MAX_RETRIES).state.cache "m").map
      (fun e => decide (2 ≤ e.attempts)) = some false := by
  decide

/-- C8 witness: concrete probe-false-then-fetch run from the empty cache. -/
theorem second_attempt_success_entry_witness :
    mapGet emptyState.cache "m" = none ∧
    isFetching emptyState "m" = false ∧
    ((fetchMetadataWithRetry emptyState 0 oracleSecondAttemptFetch 9 "m"
        MAX_RETRIES).found =
      [{ mintAddress := "m", metadata := .ofToken sampleMetadata }] ∧
     (fetchMetadataWithRetry emptyState 0 oracleSecondAttemptFetch 9 "m"
        MAX_RETRIES).fetchCalls = 1 ∧
     mapGet (fetchMetadataWithRetry emptyState 0 oracleSecondAttemptFetch 9 "m"
        MAX_RETRIES).state.cache "m" =
       some { toTokenMetadata := sampleMetadata, failed := false,
              cachedAt := 20, attempts := 1, lastAttempt := 20 }) :=
  ⟨by decide, by decide,
   second_attempt_success_entry emptyState 0 9 10 20 oracleSecondAttemptFetch
     "m" sampleMetadata (by decide) (by decide) (by decide) (by decide)⟩

/-- C7 (amended): when the cache holds an unexpired success entry, `enrich`
makes no existence probe and no fetch and emits exactly one metadata-found
notification whose payload carries the cached entry; that payload agrees with
a fresh-fetch payload of the same token metadata on every metadata field but
additionally carries the bookkeeping fields, so it is not equal as an object
to the originally emitted payload. -/
theorem cached_success_enrich_no_network (s : CacheState)
    (startTime endTime : Nat) (oracle : Nat → Attempt) (mint : String)
    (c : CachedTokenMetadata)
    (hc : mapGet s.cache mint = some c)
    (hf : c.failed = false)
    (hexp : startTime - c.cachedAt ≤ CACHE_EXPIRY_MS) :
    fetchMetadataWithRetry s startTime oracle endTime mint MAX_RETRIES =
      { state := s
        found := [{ mintAddress := mint, metadata := .ofCached c }]
        existsCalls := 0
        fetchCalls := 0
        categorizationSent := 0
        markedPending := false } ∧
    EmittedMetadata.ofCached c ≠ EmittedMetadata.ofToken c.toTokenMetadata ∧
    ((EmittedMetadata.ofCached c).name =
        (EmittedMetadata.ofToken c.toTokenMetadata).name ∧
     (EmittedMetadata.ofCached c).symbol =
        (EmittedMetadata.ofToken c.toTokenMetadata).symbol ∧
     (EmittedMetadata.ofCached c).uri =
        (EmittedMetadata.ofToken c.toTokenMetadata).uri ∧
     (EmittedMetadata.ofCached c).mint =
        (EmittedMetadata.ofToken c.toTokenMetadata).mint ∧
     (EmittedMetadata.ofCached c).updateAuthority =
        (EmittedMetadata.ofToken c.toTokenMetadata).updateAuthority ∧
     (EmittedMetadata.ofCached c).isMutable =
        (EmittedMetadata.ofToken c.toTokenMetadata).isMutable ∧
     (EmittedMetadata.ofCached c).primarySaleHappened =
        (EmittedMetadata.ofToken c.toTokenMetadata).primarySaleHappened ∧
     (EmittedMetadata.ofCached c).sellerFeeBasisPoints =
        (EmittedMetadata.ofToken c.toTokenMetadata).sellerFeeBasisPoints ∧
     (EmittedMetadata.ofCached c).offChainMetadata =
        (EmittedMetadata.ofToken c.toTokenMetadata).offChainMetadata) := by
  refine ⟨?_, ?_, rfl, rfl, rfl, rfl, rfl, rfl, rfl, rfl, rfl⟩
  · simp only [fetchMetadataWithRetry, get, hc]
    rw [if_neg (by omega)]
    simp [hf]
  · intro h
    have := congrArg EmittedMetadata.failed h
    simp [EmittedMetadata.ofCached, EmittedMetadata.ofToken] at this

/-- C7 counterexample: the re-enrichment of an already-successful id makes no
client call and emits one notification, but its payload is not equal to the
original run's payload (the cached entry carries bookkeeping fields). -/
theorem cached_success_payload_differs :
    secondEnrichRun.existsCalls = 0 ∧
    secondEnrichRun.fetchCalls = 0 ∧
    firstEnrichRun.found.length = 1 ∧
    secondEnrichRun.found.length = 1 ∧
    secondEnrichRun.found ≠ firstEnrichRun.found := by
  decide

/-- C7 witness: the concrete second run against the first run's cache. -/
theorem cached_success_enrich_no_network_witness :
    mapGet firstEnrichRun.state.cache "m" = some (sampleSuccessEntry 0) ∧
    (sampleSuccessEntry 0).failed = false ∧
    1 - (sampleSuccessEntry 0).cachedAt ≤ CACHE_EXPIRY_MS ∧
    fetchMetadataWithRetry firstEnrichRun.state 1 oracleAllExistsFalse 1 "m"
        MAX_RETRIES =
      { state := firstEnrichRun.state
        found := [{ mintAddress := "m",
                    metadata := .ofCached (sampleSuccessEntry 0) }]
        existsCalls := 0
        fetchCalls := 0
        categorizationSent := 0
        markedPending := false } :=
  ⟨by decide, by decide, by decide,
   (cached_success_enrich_no_network firstEnrichRun.state 1 1
     oracleAllExistsFalse "m" (sampleSuccessEntry 0) (by decide) (by decide)
     (by decide)).1⟩

/-- Anchor: the hard-coded byte keys are exactly the base58 decodings of the
source's `PUMP_FUN_PROGRAM_ID` and `PUMP_FUN_MINT_AUTHORITY` strings. -/
theorem pumpFunBytes_encode :
    base58Encode pumpFunProgramIdBytes = PUMP_FUN_PROGRAM_ID ∧
    base58Encode pumpFunMintAuthorityBytes = PUMP_FUN_MINT_AUTHORITY := by
  decide

/-- C9: a transaction-update message carrying the subscription filter tag and
an instruction whose leading 8 data bytes equal the create discriminator,
with the program id and mint authority among the account keys, yields exactly
one DetectedEvent whose mint is the base58 encoding of the account key
referenced by the (first) matching instruction's operand index 0; messages of
non-matching shape, missing filter tag, or with no matching instruction yield
no event (and no error). -/
theorem ingestor_detect_event :
    (∀ (d : SubscribeUpdate) (tu : SubscribeUpdateTransaction) (ti : TxInfo)
        (inner : TxInner) (msg : TxMessage) (ix : CompiledInstruction)
        (ai : Nat) (key : List Nat),
      d.transaction = some tu →
      tu.transaction = some ti →
      ti.transaction = some inner →
      inner.message = some msg →
      d.filters.contains "pumpFun" = true →
      msg.instructions.find? matchesInstructionDiscriminator = some ix →
      pumpFunProgramIdBytes ∈ msg.accountKeys →
      pumpFunMintAuthorityBytes ∈ msg.accountKeys →
      ix.accounts.get? 0 = some ai →
      msg.accountKeys.get? ai = some key →
      handleData d =
        some { signature := base58Encode ti.signature, slot := tu.slot,
               mint := base58Encode key }) ∧
    (∀ d : SubscribeUpdate, d.transaction = none → handleData d = none) ∧
    (∀ d : SubscribeUpdate, d.filters.contains "pumpFun" = false →
      handleData d = none) ∧
    (∀ (d : SubscribeUpdate) (tu : SubscribeUpdateTransaction),
      d.transaction = some tu → tu.transaction = none → handleData d = none) ∧
    (∀ (d : SubscribeUpdate) (tu : SubscribeUpdateTransaction) (ti : TxInfo),
      d.transaction = some tu → tu.transaction = some ti →
      ti.transaction = none → handleData d = none) ∧
    (∀ (d : SubscribeUpdate) (tu : SubscribeUpdateTransaction) (ti : TxInfo)
        (inner : TxInner),
      d.transaction = some tu → tu.transaction = some ti →
      ti.transaction = some inner → inner.message = none →
      handleData d = none) ∧
    (∀ (d : SubscribeUpdate) (tu : SubscribeUpdateTransaction) (ti : TxInfo)
        (inner : TxInner) (msg : TxMessage),
      d.transaction = some tu → tu.transaction = some ti →
      ti.transaction = some inner → inner.message = some msg →
      msg.instructions.find? matchesInstructionDiscriminator = none →
      handleData d = none) := by
  refine ⟨?_, ?_, ?_, ?_, ?_, ?_, ?_⟩
  · intro d tu ti inner msg ix ai key hd htu hti hinner hfilters hfind hp ha
      hai hkey
    simp only [handleData, hd, htu, hti, hinner, hfilters, hfind,
      Bool.not_true, Bool.false_eq_true, if_false]
    simp only [formatData, hfind, hai, hkey]
  · intro d hd
    simp [handleData, hd]
  · intro d hf
    cases hd : d.transaction with
    | none => simp [handleData, hd]
    | some tu => simp only [handleData, hd, hf, Bool.not_false, if_true]
  · intro d tu hd htu
    simp [handleData, hd, htu]
  · intro d tu ti hd htu hti
    simp only [handleData, hd, htu, hti]
    split <;> rfl
  · intro d tu ti inner hd htu hti hinner
    simp only [handleData, hd, htu, hti, hinner]
    split <;> rfl
  · intro d tu ti inner msg hd htu hti hinner hfind
    simp only [handleData, hd, htu, hti, hinner, hfind]
    split <;> rfl

/-- C9 witness: the concrete matching message produces the expected event. -/
theorem ingestor_detect_event_witness :
    handleData sampleDetectUpdate =
      some { signature := base58Encode [9, 9, 9], slot := "42",
             mint := base58Encode sampleMintKeyBytes } :=
  ingestor_detect_event.1 sampleDetectUpdate sampleDetectTu sampleDetectTxInfo
    sampleDetectInner sampleDetectMessage sampleDetectIx 2 sampleMintKeyBytes
    rfl rfl rfl rfl (by decide) (by decide) (by decide) (by decide)
    (by decide) (by decide)

end Pumpkin
